import Mathlib

/-!
Verification development for the QWER fan-site CRUD backend.

The TypeScript services (albumService, settingsService, profileService,
galleryService, noticeService, scheduleService and their controllers) are
shallowly embedded as pure Lean functions over explicit state:

* the relational store is a list of rows per table,
* the S3 object store is a list of live keys,
* every service call returns its result together with the updated state and
  a trace of the effectful calls it issued (SQL statements, S3 uploads and
  deletes, transaction begin/commit/rollback), in program order,
* `await`ed calls that can fail are driven by explicit failure oracles
  (`uploadFails` on a file, a `sqlFail` flag for the row write).

S3 object keys in the source are strings rendered from the template
`dir/stem.ext` (e.g. `albums/<uuid>.png`, `images/main.png`,
`members/<id>/<timestamp>.jpg`, `gallery/<uuid>.png`); that template is
injective in its three components, which the structured type below captures.
-/

/-- An S3 object key `dir/stem.ext` as built by the services
(`albums/<uuid>.<ext>`, `images/main.<ext>`, `gallery/<uuid>.<ext>`,
`members/<id>/<token>.<ext>` with `dir = members/<id>`). -/
structure S3Key where
  dir : String
  stem : String
  ext : String
deriving DecidableEq, Repr

/-- The string path the code renders for a key (`${dir}/${stem}.${ext}`),
which is also the URL pathname (minus the leading slash) of the public URL
returned by `uploadBufferToStorage`. -/
def S3Key.path (k : S3Key) : String :=
  k.dir ++ "/" ++ k.stem ++ "." ++ k.ext

/-- A URL string as stored in an image column.  `fromKey k` is an
adapter-generated URL `https://<bucket>.s3.<region>.amazonaws.com/<k.path>`;
`foreignUrl p` is a URL that `new URL(...)` parses but whose pathname `p`
is not an adapter key path; `malformed s` is a string on which `new URL(...)`
throws (e.g. the literal `"file_placeholder"`). -/
inductive StoredUrl where
  | fromKey (k : S3Key)
  | foreignUrl (path : String)
  | malformed (raw : String)
deriving DecidableEq, Repr

/-- `extractS3Key` as written (three identical copies in settingsService,
profileService and the gallery service, differing only in the namespace
string): parse the URL, drop the leading slash from the pathname, return the
path if it starts with the namespace prefix, and `null` on a parse failure
or a non-matching prefix. -/
def extractS3Key (ns : String) : StoredUrl → Option S3Key
  | .fromKey k => if ns.data.isPrefixOf k.path.data then some k else none
  | .foreignUrl _ => none
  | .malformed _ => none

/-- `file.mimetype.split('/').pop() || 'png'`: the segment after the last
slash (computed character by character), with `'png'` for an empty pop. -/
def extOfMime (mime : String) : String :=
  let e := String.mk (mime.data.foldl (fun acc c => if c = '/' then [] else acc ++ [c]) [])
  if e = "" then "png" else e

/-- A multipart file as the services see it.  `uploadFails` is the failure
oracle for the S3 `PutObject` this file's upload would issue;
`bufferNonempty` models the truthiness of `file.buffer`. -/
structure FileIn where
  mimetype : String
  bufferNonempty : Bool
  uploadFails : Bool
deriving DecidableEq, Repr

/-- One effectful call issued by a service, in program order. -/
inductive Ev where
  | sqlSelect
  | sqlInsert
  | sqlUpdate
  | sqlUpsert
  | sqlDelete
  | txBegin
  | txCommit
  | txRollback
  | upload (k : S3Key)
  | uploadFail (k : S3Key)
  | storageDelete (k : S3Key)
  | storageDeleteRaw (path : String)
deriving DecidableEq, Repr

/-- The error a service call surfaces to its controller. -/
inductive SvcErr where
  | validationErr
  | notFoundErr
  | storageErr
  | dbErr
deriving DecidableEq, Repr

/-- Add a key to the live-object set (S3 `PutObject` overwrites). -/
def addKey (storage : List S3Key) (k : S3Key) : List S3Key :=
  if k ∈ storage then storage else k :: storage

/-- Remove a key from the live-object set (S3 `DeleteObject`). -/
def delKey (storage : List S3Key) (k : S3Key) : List S3Key :=
  storage.erase k

/-- The S3 keys this trace uploaded successfully. -/
def uploadsOf (tr : List Ev) : List S3Key :=
  tr.filterMap fun e => match e with
    | .upload k => some k
    | _ => none

-- ======================================================================
-- settingsService.ts
-- ======================================================================

/-- One SNS link entry of the settings payload. -/
structure SnsLink where
  sid : String
  url : String
deriving DecidableEq, Repr

/-- The `snsLinks` text column: SQL `NULL`, a JSON array, JSON that parses
to a non-array, or text `JSON.parse` rejects. -/
inductive SnsCol where
  | nullCol
  | jsonArr (ls : List SnsLink)
  | jsonNonArr
  | badJson
deriving DecidableEq, Repr

/-- The settings singleton row (`id = 1`). -/
structure SettingsRow where
  mainImage : Option StoredUrl
  sns : SnsCol
deriving DecidableEq, Repr

/-- State seen by settingsService: the optional singleton row and the live
S3 objects. -/
structure SettingsState where
  row : Option SettingsRow
  storage : List S3Key
deriving DecidableEq, Repr

/-- The domain shape `getSettings`/`saveSettings` return.  `mainImage = none`
models the empty string `''` the code uses for "no image". -/
structure SettingsData where
  mainImage : Option StoredUrl
  snsLinks : List SnsLink
deriving DecidableEq, Repr

/-- `getSettings`: select the singleton row; with no row return the default
`{ mainImage: '', snsLinks: [] }`; otherwise `mainImage || ''` and the JSON
array if `snsLinks` parses to one, else `[]`. -/
def getSettings (st : SettingsState) : SettingsData :=
  match st.row with
  | none => { mainImage := none, snsLinks := [] }
  | some r =>
    { mainImage := r.mainImage
      snsLinks :=
        match r.sns with
        | .nullCol => []
        | .jsonArr ls => ls
        | .jsonNonArr => []
        | .badJson => [] }

/-- The fixed settings upload key `images/main.<ext>`. -/
def settingsKey (mime : String) : S3Key :=
  { dir := "images", stem := "main", ext := extOfMime mime }

/-- `saveSettings(snsLinks, file)`: begin a transaction, `SELECT ... FOR
UPDATE` the singleton row; if a file is supplied first delete the prior
object (when its URL yields a key under `images/`; the delete rejection is
caught and logged), check the buffer/mimetype, then upload to the fixed key
`images/main.<ext>`; upsert the row; commit.  Any throw rolls back and
rethrows.  `sqlFail` is the failure oracle for the upsert statement. -/
def saveSettings (sqlFail : Bool) (st : SettingsState)
    (snsLinks : List SnsLink) (file : Option FileIn) :
    Except SvcErr SettingsData × SettingsState × List Ev :=
  let current : Option StoredUrl := st.row.bind (·.mainImage)
  match file with
  | none =>
    let evs := [Ev.txBegin, Ev.sqlSelect]
    if sqlFail then
      (.error .dbErr, st, evs ++ [Ev.txRollback])
    else
      let newRow : SettingsRow := { mainImage := current, sns := .jsonArr snsLinks }
      (.ok { mainImage := current, snsLinks := snsLinks },
       { row := some newRow, storage := st.storage },
       evs ++ [Ev.sqlUpsert, Ev.txCommit])
  | some f =>
    let (delEvs, storage1) :=
      match current with
      | some u =>
        match extractS3Key "images/" u with
        | some k => ([Ev.storageDelete k], delKey st.storage k)
        | none => ([], st.storage)
      | none => ([], st.storage)
    let evs1 := [Ev.txBegin, Ev.sqlSelect] ++ delEvs
    if ¬ f.bufferNonempty ∨ f.mimetype = "" then
      (.error .validationErr, { row := st.row, storage := storage1 },
       evs1 ++ [Ev.txRollback])
    else
      let key := settingsKey f.mimetype
      if f.uploadFails then
        (.error .storageErr, { row := st.row, storage := storage1 },
         evs1 ++ [Ev.uploadFail key, Ev.txRollback])
      else
        let storage2 := addKey storage1 key
        let evs2 := evs1 ++ [Ev.upload key]
        if sqlFail then
          (.error .dbErr, { row := st.row, storage := storage2 },
           evs2 ++ [Ev.txRollback])
        else
          let newRow : SettingsRow :=
            { mainImage := some (.fromKey key), sns := .jsonArr snsLinks }
          (.ok { mainImage := some (.fromKey key), snsLinks := snsLinks },
           { row := some newRow, storage := storage2 },
           evs2 ++ [Ev.sqlUpsert, Ev.txCommit])

-- ======================================================================
-- albumService.ts / albumController.ts
-- ======================================================================

/-- An album row.  `image = none` models the empty string `''` the code
stores for "no cover"; `tracks` is kept structured (the code serializes it
to a JSON text column and parses it back on read). -/
structure AlbumRow where
  id : Nat
  title : String
  date : String
  description : String
  tracks : List String
  videoUrl : String
  image : Option StoredUrl
deriving DecidableEq, Repr

/-- State seen by albumService: the `albums` table, the auto-increment
counter, and the live S3 objects. -/
structure AlbumState where
  db : List AlbumRow
  nextId : Nat
  storage : List S3Key
deriving DecidableEq, Repr

/-- The wire payload of an album create/update (`Partial<AlbumItem>`);
`none` models an absent or empty (falsy) field, which the required-field
check `!data.title || !data.date` rejects. -/
structure AlbumIn where
  title : Option String
  date : Option String
  description : Option String
  tracks : Option (List String)
  videoUrl : Option String
deriving DecidableEq, Repr

/-- `getAlbumById`: select by id. -/
def getAlbumById (st : AlbumState) (id : Nat) : Option AlbumRow :=
  st.db.find? (fun r => r.id = id)

/-- albumService's private `deleteS3File(fileUrl)`: parse the URL and issue
`DeleteObject` on the pathname (no namespace-prefix check); on a parse
failure the wrapped error propagates to the caller's `.catch`, so no delete
is issued.  Returns the delete events and the new live-object set. -/
def albumDeleteS3File (storage : List S3Key) (url : StoredUrl) :
    List Ev × List S3Key :=
  match url with
  | .fromKey k => ([Ev.storageDelete k], delKey storage k)
  | .foreignUrl p => ([Ev.storageDeleteRaw p], storage)
  | .malformed _ => ([], storage)

/-- The album upload key `albums/<uuid>.<ext>`. -/
def albumKey (uuid : String) (mime : String) : S3Key :=
  { dir := "albums", stem := uuid, ext := extOfMime mime }

/-- `createAlbum(data, file)`: reject when `!data.title || !data.date`
before any other call; else upload the cover (if a file was sent) to a
fresh `albums/<uuid>.<ext>` key, then insert the row.  `uuid` stands for
the `uuidv4()` draw. -/
def createAlbum (st : AlbumState) (data : AlbumIn) (file : Option FileIn)
    (uuid : String) : Except SvcErr AlbumRow × AlbumState × List Ev :=
  if data.title.getD "" = "" ∨ data.date.getD "" = "" then
    (.error .validationErr, st, [])
  else
    match file with
    | some f =>
      let key := albumKey uuid f.mimetype
      if f.uploadFails then
        (.error .storageErr, st, [Ev.uploadFail key])
      else
        let row : AlbumRow :=
          { id := st.nextId, title := data.title.getD "", date := data.date.getD ""
            description := data.description.getD "", tracks := data.tracks.getD []
            videoUrl := data.videoUrl.getD "", image := some (.fromKey key) }
        (.ok row,
         { db := st.db ++ [row], nextId := st.nextId + 1
           storage := addKey st.storage key },
         [Ev.upload key, Ev.sqlInsert])
    | none =>
      let row : AlbumRow :=
        { id := st.nextId, title := data.title.getD "", date := data.date.getD ""
          description := data.description.getD "", tracks := data.tracks.getD []
          videoUrl := data.videoUrl.getD "", image := none }
      (.ok row,
       { db := st.db ++ [row], nextId := st.nextId + 1, storage := st.storage },
       [Ev.sqlInsert])

/-- Merge the supplied patch fields over an existing row and set the final
image URL (the `updateFields` object of `updateAlbum`). -/
def applyAlbumPatch (r : AlbumRow) (data : AlbumIn) (img : Option StoredUrl) :
    AlbumRow :=
  { id := r.id
    title := data.title.getD r.title
    date := data.date.getD r.date
    description := data.description.getD r.description
    tracks := data.tracks.getD r.tracks
    videoUrl := data.videoUrl.getD r.videoUrl
    image := img }

/-- `updateAlbum(id, data, file)`: select the row (return `null` when
absent); if a file is supplied, first delete the existing S3 object via
`deleteS3File(...).catch(log)`, then upload the new cover to a fresh
`albums/<uuid>.<ext>` key (a rejected upload propagates); update the row
with the patch fields plus the final image URL; select and return it. -/
def updateAlbum (st : AlbumState) (id : Nat) (data : AlbumIn)
    (file : Option FileIn) (uuid : String) :
    Except SvcErr (Option AlbumRow) × AlbumState × List Ev :=
  match getAlbumById st id with
  | none => (.ok none, st, [Ev.sqlSelect])
  | some r =>
    match file with
    | none =>
      let r2 := applyAlbumPatch r data r.image
      (.ok (some r2),
       { db := st.db.map (fun x => if x.id = id then r2 else x)
         nextId := st.nextId, storage := st.storage },
       [Ev.sqlSelect, Ev.sqlUpdate, Ev.sqlSelect])
    | some f =>
      let (delEvs, storage1) :=
        match r.image with
        | some u => albumDeleteS3File st.storage u
        | none => ([], st.storage)
      let key := albumKey uuid f.mimetype
      if f.uploadFails then
        (.error .storageErr,
         { db := st.db, nextId := st.nextId, storage := storage1 },
         [Ev.sqlSelect] ++ delEvs ++ [Ev.uploadFail key])
      else
        let r2 := applyAlbumPatch r data (some (.fromKey key))
        (.ok (some r2),
         { db := st.db.map (fun x => if x.id = id then r2 else x)
           nextId := st.nextId, storage := addKey storage1 key },
         [Ev.sqlSelect] ++ delEvs ++ [Ev.upload key, Ev.sqlUpdate, Ev.sqlSelect])

/-- `deleteAlbum(id)`: select the row; when absent, `return` silently (no
throw, no further statement); else delete the S3 object (rejection caught
and logged) and delete the row. -/
def deleteAlbum (st : AlbumState) (id : Nat) :
    Except SvcErr Unit × AlbumState × List Ev :=
  match getAlbumById st id with
  | none => (.ok (), st, [Ev.sqlSelect])
  | some r =>
    let (delEvs, storage1) :=
      match r.image with
      | some u => albumDeleteS3File st.storage u
      | none => ([], st.storage)
    (.ok (),
     { db := st.db.filter (fun x => x.id ≠ id), nextId := st.nextId
       storage := storage1 },
     [Ev.sqlSelect] ++ delEvs ++ [Ev.sqlDelete])

/-- albumController's `createAlbum` handler: respond 400 before invoking
the service when `!title || !date`; else run the service and map success
to 201 and a thrown error to 500. -/
def controllerCreateAlbum (st : AlbumState) (data : AlbumIn)
    (file : Option FileIn) (uuid : String) : Nat × AlbumState × List Ev :=
  if data.title.getD "" = "" ∨ data.date.getD "" = "" then
    (400, st, [])
  else
    match createAlbum st data file uuid with
    | (.ok _, st2, tr) => (201, st2, tr)
    | (.error _, st2, tr) => (500, st2, tr)

/-- albumController's `deleteAlbum` handler: run the service and respond
`{success: true}` (200); the 404 branch fires only when the service throws
a "not found" error, which `deleteAlbum` never does. -/
def controllerDeleteAlbum (st : AlbumState) (id : Nat) :
    Nat × AlbumState × List Ev :=
  match deleteAlbum st id with
  | (.ok _, st2, tr) => (200, st2, tr)
  | (.error .notFoundErr, st2, tr) => (404, st2, tr)
  | (.error _, st2, tr) => (500, st2, tr)

-- ======================================================================
-- galleryService.ts (and the transactional delete variants)
-- ======================================================================

/-- A gallery row (`id` VARCHAR(36), `url` text, `createdAt`). -/
structure GalleryRow where
  id : String
  url : StoredUrl
deriving DecidableEq, Repr

/-- State seen by the gallery service. -/
structure GalleryState where
  db : List GalleryRow
  storage : List S3Key
deriving DecidableEq, Repr

/-- A `{ id, url, createdAt }` item the upload endpoint returns. -/
structure GalleryItem where
  id : String
  url : StoredUrl
deriving DecidableEq, Repr

/-- The gallery upload key `gallery/<uuid>.<ext>`. -/
def galleryKey (uuid : String) (mime : String) : S3Key :=
  { dir := "gallery", stem := uuid, ext := extOfMime mime }

/-- `uploadGalleryImages(files)` (galleryService.ts): for each file draw a
uuid for the key and try the S3 upload; a rejected upload is logged and the
file skipped (`continue`) with no insert; on success draw a fresh id,
insert the row and append `{ id, url }`.  `tok i` is the i-th `uuidv4()`
draw; the call site's next draw index is returned with the result. -/
def uploadGalleryImages (tok : Nat → String) (i : Nat) (st : GalleryState) :
    List FileIn → List GalleryItem × GalleryState × List Ev × Nat
  | [] => ([], st, [], i)
  | f :: fs =>
    let key := galleryKey (tok i) f.mimetype
    if f.uploadFails then
      let (items, st2, tr, j) := uploadGalleryImages tok (i + 1) st fs
      (items, st2, Ev.uploadFail key :: tr, j)
    else
      let newId := tok (i + 1)
      let row : GalleryRow := { id := newId, url := .fromKey key }
      let st1 : GalleryState :=
        { db := st.db ++ [row], storage := addKey st.storage key }
      let (items, st2, tr, j) := uploadGalleryImages tok (i + 2) st1 fs
      ({ id := newId, url := .fromKey key } :: items, st2,
       Ev.upload key :: Ev.sqlInsert :: tr, j)

/-- `deleteGallery(id)` (transactional variant): begin, select the row by
id; when absent roll back and throw `Gallery item not found`; else extract
the key from the URL (skip the S3 delete with a warning when it is `null`),
issue the S3 delete (a rejection is caught and logged), delete the row and
commit.  `sdFail` is the failure oracle for the S3 `DeleteObject`. -/
def deleteGallery (sdFail : S3Key → Bool) (st : GalleryState) (id : String) :
    Except SvcErr Unit × GalleryState × List Ev :=
  match st.db.find? (fun r => r.id = id) with
  | none =>
    (.error .notFoundErr, st, [Ev.txBegin, Ev.sqlSelect, Ev.txRollback])
  | some r =>
    let (delEvs, storage1) :=
      match extractS3Key "gallery/" r.url with
      | some k =>
        if sdFail k then ([Ev.storageDelete k], st.storage)
        else ([Ev.storageDelete k], delKey st.storage k)
      | none => ([], st.storage)
    (.ok (),
     { db := st.db.filter (fun x => x.id ≠ id), storage := storage1 },
     [Ev.txBegin, Ev.sqlSelect] ++ delEvs ++ [Ev.sqlDelete, Ev.txCommit])

/-- `deleteMultipleGallery(ids)`: apply `deleteGallery` per id inside a
`try`; both the `Gallery item not found` throw and any other error are
caught and the loop continues; ids whose delete returned normally are
collected and returned. -/
def deleteMultipleGallery (sdFail : S3Key → Bool) (st : GalleryState) :
    List String → List String × GalleryState
  | [] => ([], st)
  | id :: rest =>
    match deleteGallery sdFail st id with
    | (.ok _, st1, _) =>
      let (done, st2) := deleteMultipleGallery sdFail st1 rest
      (id :: done, st2)
    | (.error _, st1, _) =>
      let (done, st2) := deleteMultipleGallery sdFail st1 rest
      (done, st2)

-- ======================================================================
-- profileService.ts
-- ======================================================================

/-- A payload image slot: the literal `"file_placeholder"` (a new file to
upload), an empty/falsy url (dropped), or a concrete url string (kept). -/
inductive PayloadUrl where
  | placeholder
  | emptyUrl
  | given (u : StoredUrl)
deriving DecidableEq, Repr

/-- One entry of `payload.images`. -/
structure PayloadImage where
  iid : String
  url : PayloadUrl
deriving DecidableEq, Repr

/-- One entry of the stored `image_urls` JSON column. -/
structure ImgItem where
  iid : String
  url : StoredUrl
deriving DecidableEq, Repr

/-- A `members` row; `texts`/`sns` are kept as the serialized column text. -/
structure ProfileRow where
  id : String
  name : String
  texts : String
  images : List ImgItem
  sns : String
deriving DecidableEq, Repr

/-- State seen by profileService. -/
structure ProfileState where
  db : List ProfileRow
  storage : List S3Key
deriving DecidableEq, Repr

/-- The `MemberProfilePayload` fields `saveProfile` persists. -/
structure ProfilePayload where
  name : String
  texts : String
  sns : String
  images : List PayloadImage
deriving DecidableEq, Repr

/-- The member upload key `members/<id>/<token>.<ext>`; the code draws the
token from `new Date().getTime()`. -/
def memberKey (id : String) (token : String) (mime : String) : S3Key :=
  { dir := "members/" ++ id, stem := token, ext := extOfMime mime }

/-- The upload loop of `saveProfile` (step 2): walk `payload.images`; a
placeholder entry with a file left consumes the next file and the next
token, uploads to `members/<id>/<token>.<ext>` (a rejection aborts the
whole save) and yields the new URL; a placeholder with no file left is
truthy and kept verbatim; a non-empty url is kept; an empty url is
dropped. -/
def profileUploadLoop (id : String) (tok : Nat → String) (files : List FileIn)
    (storage : List S3Key) :
    List PayloadImage → Nat → Except SvcErr (List ImgItem) × List S3Key × List Ev
  | [], _ => (.ok [], storage, [])
  | item :: rest, ti =>
    match item.url, files with
    | .placeholder, f :: fs =>
      let key := memberKey id (tok ti) f.mimetype
      if f.uploadFails then
        (.error .storageErr, storage, [Ev.uploadFail key])
      else
        match profileUploadLoop id tok fs (addKey storage key) rest (ti + 1) with
        | (.error e, stg, tr) => (.error e, stg, Ev.upload key :: tr)
        | (.ok items, stg, tr) =>
          (.ok ({ iid := item.iid, url := .fromKey key } :: items), stg,
           Ev.upload key :: tr)
    | .placeholder, [] =>
      match profileUploadLoop id tok [] storage rest ti with
      | (.error e, stg, tr) => (.error e, stg, tr)
      | (.ok items, stg, tr) =>
        (.ok ({ iid := item.iid, url := .malformed "file_placeholder" } :: items),
         stg, tr)
    | .emptyUrl, fl =>
      profileUploadLoop id tok fl storage rest ti
    | .given u, fl =>
      match profileUploadLoop id tok fl storage rest ti with
      | (.error e, stg, tr) => (.error e, stg, tr)
      | (.ok items, stg, tr) =>
        (.ok ({ iid := item.iid, url := u } :: items), stg, tr)

/-- The cleanup loop of `saveProfile` (step 3): for each previously stored
URL no longer among the final URLs, extract its key under `members/` and
issue the S3 delete; extraction failures skip the delete and delete
rejections are caught, so the loop never aborts. -/
def profileCleanupLoop (finalUrls : List StoredUrl) (storage : List S3Key) :
    List StoredUrl → List S3Key × List Ev
  | [] => (storage, [])
  | oldUrl :: rest =>
    if oldUrl ∈ finalUrls then
      profileCleanupLoop finalUrls storage rest
    else
      match extractS3Key "members/" oldUrl with
      | some k =>
        let (stg, tr) := profileCleanupLoop finalUrls (delKey storage k) rest
        (stg, Ev.storageDelete k :: tr)
      | none => profileCleanupLoop finalUrls storage rest

/-- `saveProfile(id, payload, files)`: begin, load the existing profile,
upload the new files (step 2), delete the no-longer-referenced old objects
(step 3), serialize and upsert the row (step 5), commit; any throw rolls
back (the S3 state is outside the transaction) and rethrows.  `sqlFail` is
the failure oracle for the upsert. -/
def saveProfile (sqlFail : Bool) (st : ProfileState) (id : String)
    (payload : ProfilePayload) (files : List FileIn) (tok : Nat → String) :
    Except SvcErr Unit × ProfileState × List Ev :=
  let existing := st.db.find? (fun r => r.id = id)
  let existingUrls := (existing.map (·.images)).getD [] |>.map (·.url)
  match profileUploadLoop id tok files st.storage payload.images 0 with
  | (.error e, storage1, upEvs) =>
    -- a rejected upload propagates out of the loop: rollback, rethrow
    (.error e, { db := st.db, storage := storage1 },
     [Ev.txBegin, Ev.sqlSelect] ++ upEvs ++ [Ev.txRollback])
  | (.ok finalImages, storage1, upEvs) =>
    let currentUrls := finalImages.map (·.url)
    let (storage2, delEvs) := profileCleanupLoop currentUrls storage1 existingUrls
    if sqlFail then
      (.error .dbErr, { db := st.db, storage := storage2 },
       [Ev.txBegin, Ev.sqlSelect] ++ upEvs ++ delEvs ++ [Ev.txRollback])
    else
      let newRow : ProfileRow :=
        { id := id, name := payload.name, texts := payload.texts
          images := finalImages, sns := payload.sns }
      let db2 :=
        match existing with
        | some _ => st.db.map (fun r => if r.id = id then newRow else r)
        | none => st.db ++ [newRow]
      (.ok (), { db := db2, storage := storage2 },
       [Ev.txBegin, Ev.sqlSelect] ++ upEvs ++ delEvs ++ [Ev.sqlUpsert, Ev.txCommit])

-- ======================================================================
-- noticeService (updateNotice) and scheduleService (updateSchedule)
-- ======================================================================

/-- A `notice` row. -/
structure NoticeRow where
  id : String
  typ : String
  title : String
  content : String
deriving DecidableEq, Repr

/-- State seen by the notice service. -/
structure NoticeState where
  db : List NoticeRow
deriving DecidableEq, Repr

/-- `Partial<Omit<Notice, 'id' | 'createdAt' | 'updatedAt'>>`: `none`
models a field absent from the request body. -/
structure NoticePatch where
  typ : Option String
  title : Option String
  content : Option String
deriving DecidableEq, Repr

/-- `Object.entries(data)`: the present fields, in declaration order. -/
def noticeEntries (p : NoticePatch) : List (String × String) :=
  (match p.typ with | some v => [("type", v)] | none => []) ++
  (match p.title with | some v => [("title", v)] | none => []) ++
  (match p.content with | some v => [("content", v)] | none => [])

/-- `updateNotice(id, data)`: with no entries return 0 without issuing any
statement; else issue the single `UPDATE` and return its `affectedRows`
(1 when the id matches a row, 0 otherwise). -/
def updateNotice (st : NoticeState) (id : String) (p : NoticePatch) :
    Nat × NoticeState × List Ev :=
  if noticeEntries p = [] then (0, st, [])
  else
    match st.db.find? (fun r => r.id = id) with
    | none => (0, st, [Ev.sqlUpdate])
    | some r =>
      let r2 : NoticeRow :=
        { id := r.id, typ := p.typ.getD r.typ, title := p.title.getD r.title
          content := p.content.getD r.content }
      (1, { db := st.db.map (fun x => if x.id = id then r2 else x) },
       [Ev.sqlUpdate])

/-- A date value arriving in a schedule patch; `valid` models whether
`new Date(value).getTime()` is a number (an invalid date throws), `iso`
the `toISOString()` rendering persisted on success. -/
structure DateIn where
  valid : Bool
  iso : String
deriving DecidableEq, Repr

/-- A `schedules` row (`start`/`end` stored as ISO strings, `allDay` as
TINYINT). -/
structure ScheduleRow where
  id : String
  title : String
  start : String
  endT : String
  allDay : Bool
  color : String
  typ : String
deriving DecidableEq, Repr

/-- State seen by the schedule service. -/
structure ScheduleState where
  db : List ScheduleRow
deriving DecidableEq, Repr

/-- `Partial<Omit<ScheduleEvent, 'id'>>` after dropping the
explicitly-`undefined` values the loop skips; `endT` stands for the
source's `end` field. -/
structure SchedulePatch where
  title : Option String
  start : Option DateIn
  endT : Option DateIn
  allDay : Option Bool
  color : Option String
  typ : Option String
deriving DecidableEq, Repr

/-- Whether the `dataForDb` object built by `updateSchedule` is empty. -/
def schedulePatchEmpty (p : SchedulePatch) : Bool :=
  p.title.isNone && p.start.isNone && p.endT.isNone && p.allDay.isNone &&
  p.color.isNone && p.typ.isNone

/-- `updateSchedule(id, data)` (current variant, returning `affectedRows`):
build `dataForDb` skipping `undefined` values and converting dates (an
invalid date throws before any statement); with no entries return 0 without
issuing any statement; else issue the single `UPDATE` and return its
`affectedRows`. -/
def updateSchedule (st : ScheduleState) (id : String) (p : SchedulePatch) :
    Except SvcErr Nat × ScheduleState × List Ev :=
  if (p.start.any fun d => !d.valid) || (p.endT.any fun d => !d.valid) then
    (.error .validationErr, st, [])
  else if schedulePatchEmpty p then
    (.ok 0, st, [])
  else
    match st.db.find? (fun r => r.id = id) with
    | none => (.ok 0, st, [Ev.sqlUpdate])
    | some r =>
      let r2 : ScheduleRow :=
        { id := r.id, title := p.title.getD r.title
          start := (p.start.map (·.iso)).getD r.start
          endT := (p.endT.map (·.iso)).getD r.endT
          allDay := p.allDay.getD r.allDay
          color := p.color.getD r.color
          typ := p.typ.getD r.typ }
      (.ok 1, { db := st.db.map (fun x => if x.id = id then r2 else x) },
       [Ev.sqlUpdate])

-- ======================================================================
-- Trace-ordering predicate for the orphan-cleanup claim
-- ======================================================================

/-- Whether this event is a successful S3 upload. -/
def evIsUpload : Ev → Bool
  | .upload _ => true
  | _ => false

/-- Whether this event makes the row write durable: a plain (autocommit)
INSERT/UPDATE/UPSERT statement or a transaction commit. -/
def evIsRowWrite : Ev → Bool
  | .sqlInsert => true
  | .sqlUpdate => true
  | .sqlUpsert => true
  | .txCommit => true
  | _ => false

/-- Walk the trace tracking whether an upload and a row write have already
happened; every delete of the given (prior) key must come after both. -/
def priorDeleteOrderedAux (k : S3Key) (seenUp seenWr : Bool) : List Ev → Bool
  | [] => true
  | e :: tr =>
    (match e with
     | .storageDelete k2 => decide (k2 ≠ k) || (seenUp && seenWr)
     | _ => true) &&
    priorDeleteOrderedAux k (seenUp || evIsUpload e) (seenWr || evIsRowWrite e) tr

/-- The claimed ordering for a save that replaces the image: at no point of
the trace is the prior object `k` deleted before a new object was uploaded
and the row write succeeded. -/
def priorDeleteOrdered (k : S3Key) (tr : List Ev) : Bool :=
  priorDeleteOrderedAux k false false tr

-- ======================================================================
-- C8
-- ======================================================================

/-- C8: when the settings singleton has no stored row, `getSettings`
returns the default object (empty main image — modelled by `none` for the
code's `''` — and empty SNS-link list), not null and not an error: the
return type is the total `SettingsData`. -/
theorem getSettings_no_row_returns_default (storage : List S3Key) :
    getSettings { row := none, storage := storage } =
      { mainImage := none, snsLinks := [] } := rfl

-- ======================================================================
-- C10
-- ======================================================================

/-- C10: `updateNotice` and `updateSchedule` called with an empty field set
issue no SQL statement (empty trace), return 0 affected rows, and leave the
stored rows unchanged. -/
theorem update_with_empty_field_set_is_noop (stN : NoticeState)
    (stS : ScheduleState) (idN idS : String) :
    updateNotice stN idN { typ := none, title := none, content := none } =
      (0, stN, []) ∧
    updateSchedule stS idS
      { title := none, start := none, endT := none, allDay := none
        color := none, typ := none } = (.ok 0, stS, []) :=
  ⟨rfl, rfl⟩

-- ======================================================================
-- C1
-- ======================================================================

/-- C1 counterexample: a concrete `updateAlbum` call that replaces the
cover of an album whose prior image exists deletes the prior stored object
as its very first effect — before the new object is uploaded and before
the row is written — refuting the claimed "old object removed only after
the row commit" ordering. -/
theorem updateAlbum_deletes_prior_before_upload_and_commit :
    Ev.storageDelete { dir := "albums", stem := "old0", ext := "png" } ∈
      (updateAlbum
        { db := [{ id := 1, title := "T", date := "2024-01-01", description := ""
                   tracks := [], videoUrl := ""
                   image := some (.fromKey { dir := "albums", stem := "old0", ext := "png" }) }]
          nextId := 2
          storage := [{ dir := "albums", stem := "old0", ext := "png" }] }
        1
        { title := some "Y", date := none, description := none, tracks := none
          videoUrl := none }
        (some { mimetype := "image/png", bufferNonempty := true, uploadFails := false })
        "new1").2.2 ∧
    priorDeleteOrdered { dir := "albums", stem := "old0", ext := "png" }
      ((updateAlbum
        { db := [{ id := 1, title := "T", date := "2024-01-01", description := ""
                   tracks := [], videoUrl := ""
                   image := some (.fromKey { dir := "albums", stem := "old0", ext := "png" }) }]
          nextId := 2
          storage := [{ dir := "albums", stem := "old0", ext := "png" }] }
        1
        { title := some "Y", date := none, description := none, tracks := none
          videoUrl := none }
        (some { mimetype := "image/png", bufferNonempty := true, uploadFails := false })
        "new1").2.2) = false := by
  decide

/-- C1 amended: when a save replaces an image and a prior image exists,
`updateAlbum` and `saveSettings` delete the prior object *before* the new
upload and before the row write, and `saveProfile` deletes the
no-longer-referenced prior objects after the uploads but still before the
row upsert and commit — shown by the full effect traces. -/
theorem prior_object_removed_before_row_commit
    (st : AlbumState) (id : Nat) (data : AlbumIn) (f : FileIn) (uuid : String)
    (r : AlbumRow) (kOld : S3Key)
    (hfind : getAlbumById st id = some r)
    (him : r.image = some (.fromKey kOld))
    (hup : f.uploadFails = false)
    (st2 : SettingsState) (sns : List SnsLink) (g : FileIn)
    (r2 : SettingsRow) (k2 : S3Key)
    (hrow : st2.row = some r2) (him2 : r2.mainImage = some (.fromKey k2))
    (hpre : "images/".data.isPrefixOf k2.path.data = true)
    (hbuf : g.bufferNonempty = true) (hmime : ¬ g.mimetype = "")
    (hgup : g.uploadFails = false)
    (st3 : ProfileState) (pid : String) (tok : Nat → String) (h3 : FileIn)
    (r3 : ProfileRow) (i0 i1 pname ptexts psns : String) (k0 : S3Key)
    (hfind3 : st3.db.find? (fun x => x.id = pid) = some r3)
    (him3 : r3.images = [{ iid := i0, url := .fromKey k0 }])
    (hpre3 : "members/".data.isPrefixOf k0.path.data = true)
    (h3up : h3.uploadFails = false)
    (hne : memberKey pid (tok 0) h3.mimetype ≠ k0) :
    (updateAlbum st id data (some f) uuid).2.2 =
      [Ev.sqlSelect, Ev.storageDelete kOld,
       Ev.upload (albumKey uuid f.mimetype), Ev.sqlUpdate, Ev.sqlSelect] ∧
    (saveSettings false st2 sns (some g)).2.2 =
      [Ev.txBegin, Ev.sqlSelect, Ev.storageDelete k2,
       Ev.upload (settingsKey g.mimetype), Ev.sqlUpsert, Ev.txCommit] ∧
    (saveProfile false st3 pid
        { name := pname, texts := ptexts, sns := psns
          images := [{ iid := i1, url := .placeholder }] } [h3] tok).2.2 =
      [Ev.txBegin, Ev.sqlSelect, Ev.upload (memberKey pid (tok 0) h3.mimetype),
       Ev.storageDelete k0, Ev.sqlUpsert, Ev.txCommit] := by
  refine ⟨?_, ?_, ?_⟩
  · simp [updateAlbum, hfind, him, hup, albumDeleteS3File]
  · simp [saveSettings, hrow, him2, extractS3Key, hpre, hbuf, hmime, hgup]
  · simp [saveProfile, hfind3, him3, profileUploadLoop, h3up,
      profileCleanupLoop, extractS3Key, hpre3, Ne.symm hne]

/-- C1 amended, witnessed at a concrete input for each of the three
services. -/
theorem prior_object_removed_before_row_commit_witness :
    (updateAlbum
        { db := [{ id := 1, title := "T", date := "2024-01-01", description := ""
                   tracks := [], videoUrl := ""
                   image := some (.fromKey { dir := "albums", stem := "o", ext := "png" }) }]
          nextId := 2, storage := [{ dir := "albums", stem := "o", ext := "png" }] }
        1 { title := some "Y", date := none, description := none, tracks := none
            videoUrl := none }
        (some { mimetype := "image/png", bufferNonempty := true, uploadFails := false })
        "n").2.2 =
      [Ev.sqlSelect, Ev.storageDelete { dir := "albums", stem := "o", ext := "png" },
       Ev.upload (albumKey "n" "image/png"), Ev.sqlUpdate, Ev.sqlSelect] ∧
    (saveSettings false
        { row := some { mainImage := some (.fromKey { dir := "images", stem := "main", ext := "gif" })
                        sns := .nullCol }
          storage := [{ dir := "images", stem := "main", ext := "gif" }] }
        [] (some { mimetype := "image/png", bufferNonempty := true, uploadFails := false })).2.2 =
      [Ev.txBegin, Ev.sqlSelect,
       Ev.storageDelete { dir := "images", stem := "main", ext := "gif" },
       Ev.upload (settingsKey "image/png"), Ev.sqlUpsert, Ev.txCommit] ∧
    (saveProfile false
        { db := [{ id := "m1", name := "N", texts := "[]"
                   images := [{ iid := "a", url := .fromKey { dir := "members/m1", stem := "t9", ext := "png" } }]
                   sns := "[]" }]
          storage := [{ dir := "members/m1", stem := "t9", ext := "png" }] }
        "m1" { name := "N", texts := "[]", sns := "[]"
               images := [{ iid := "b", url := .placeholder }] }
        [{ mimetype := "image/png", bufferNonempty := true, uploadFails := false }]
        (fun _ => "t0")).2.2 =
      [Ev.txBegin, Ev.sqlSelect, Ev.upload (memberKey "m1" "t0" "image/png"),
       Ev.storageDelete { dir := "members/m1", stem := "t9", ext := "png" },
       Ev.sqlUpsert, Ev.txCommit] :=
  prior_object_removed_before_row_commit _ 1 _ _ "n"
    { id := 1, title := "T", date := "2024-01-01", description := "", tracks := []
      videoUrl := ""
      image := some (.fromKey { dir := "albums", stem := "o", ext := "png" }) }
    { dir := "albums", stem := "o", ext := "png" } (by decide) rfl rfl
    _ []
    { mimetype := "image/png", bufferNonempty := true, uploadFails := false }
    { mainImage := some (.fromKey { dir := "images", stem := "main", ext := "gif" })
      sns := .nullCol }
    { dir := "images", stem := "main", ext := "gif" } rfl rfl (by decide) rfl
    (by decide) rfl
    _ "m1" _ _
    { id := "m1", name := "N", texts := "[]"
      images := [{ iid := "a", url := .fromKey { dir := "members/m1", stem := "t9", ext := "png" } }]
      sns := "[]" }
    "a" "b" "N" "[]" "[]"
    { dir := "members/m1", stem := "t9", ext := "png" }
    (by decide) rfl (by decide) rfl (by decide)

-- ======================================================================
-- C2
-- ======================================================================

/-- C2: an album create with a missing (or empty, i.e. falsy) required
`title` or `date` fails with a validation error before touching storage:
the service throws with an empty effect trace and unchanged state (zero
uploads, no insert), and the controller answers 400 without invoking any
effect. -/
theorem createAlbum_missing_required_field_short_circuits
    (st : AlbumState) (data : AlbumIn) (file : Option FileIn) (uuid : String)
    (h : data.title.getD "" = "" ∨ data.date.getD "" = "") :
    createAlbum st data file uuid = (.error .validationErr, st, []) ∧
    controllerCreateAlbum st data file uuid = (400, st, []) := by
  constructor
  · simp [createAlbum, h]
  · simp [controllerCreateAlbum, h]

/-- C2 witnessed on a create that supplies a date but no title. -/
theorem createAlbum_missing_required_field_short_circuits_witness :
    createAlbum { db := [], nextId := 1, storage := [] }
        { title := none, date := some "2024-01-01", description := none
          tracks := none, videoUrl := none }
        (some { mimetype := "image/png", bufferNonempty := true, uploadFails := false })
        "u0" =
      (.error .validationErr, { db := [], nextId := 1, storage := [] }, []) ∧
    controllerCreateAlbum { db := [], nextId := 1, storage := [] }
        { title := none, date := some "2024-01-01", description := none
          tracks := none, videoUrl := none }
        (some { mimetype := "image/png", bufferNonempty := true, uploadFails := false })
        "u0" =
      (400, { db := [], nextId := 1, storage := [] }, []) :=
  createAlbum_missing_required_field_short_circuits _ _ _ "u0" (Or.inl rfl)

-- ======================================================================
-- C3
-- ======================================================================

/-- C3 counterexample: deleting a nonexistent album id does *not* signal
NotFound — `deleteAlbum` returns normally and the controller answers 200
`{success: true}`, not 404. -/
theorem deleteAlbum_missing_id_reports_success :
    (deleteAlbum { db := [], nextId := 5, storage := [] } 1).1 = .ok () ∧
    (deleteAlbum { db := [], nextId := 5, storage := [] } 1).1 ≠
      .error .notFoundErr ∧
    (controllerDeleteAlbum { db := [], nextId := 5, storage := [] } 1).1 = 200 := by
  refine ⟨rfl, ?_, rfl⟩
  intro h
  exact Except.noConfusion h

/-- C3 amended: deleting a nonexistent id performs no side effects in
either service (no storage delete, no row delete; the state is unchanged);
the gallery delete signals NotFound (mapped to 404), while the album
delete returns silently, so its controller reports success (200) instead
of 404. -/
theorem delete_missing_id_has_no_side_effects
    (stA : AlbumState) (idA : Nat) (f : S3Key → Bool) (stG : GalleryState)
    (idG : String)
    (hA : getAlbumById stA idA = none)
    (hG : stG.db.find? (fun r => r.id = idG) = none) :
    deleteAlbum stA idA = (.ok (), stA, [Ev.sqlSelect]) ∧
    (controllerDeleteAlbum stA idA).1 = 200 ∧
    deleteGallery f stG idG =
      (.error .notFoundErr, stG, [Ev.txBegin, Ev.sqlSelect, Ev.txRollback]) := by
  refine ⟨?_, ?_, ?_⟩
  · simp [deleteAlbum, hA]
  · simp [controllerDeleteAlbum, deleteAlbum, hA]
  · simp [deleteGallery, hG]

/-- C3 amended, witnessed on empty tables. -/
theorem delete_missing_id_has_no_side_effects_witness :
    deleteAlbum { db := [], nextId := 5, storage := [] } 1 =
      (.ok (), { db := [], nextId := 5, storage := [] }, [Ev.sqlSelect]) ∧
    (controllerDeleteAlbum { db := [], nextId := 5, storage := [] } 1).1 = 200 ∧
    deleteGallery (fun _ => false) { db := [], storage := [] } "g1" =
      (.error .notFoundErr, { db := [], storage := [] },
       [Ev.txBegin, Ev.sqlSelect, Ev.txRollback]) :=
  delete_missing_id_has_no_side_effects _ 1 _ _ "g1" rfl rfl

-- ======================================================================
-- C7
-- ======================================================================

/-- C7: when a stored URL cannot be parsed back into a storage key under
the adapter's scheme (`extractS3Key` returns `none` — wrong prefix or
malformed URL), the cleanup path of the gallery delete skips the storage
deletion and completes without error: the trace holds no storage-delete
call and the row is still removed. -/
theorem deleteGallery_unparseable_url_skips_storage_delete
    (f : S3Key → Bool) (st : GalleryState) (id : String) (r : GalleryRow)
    (hfind : st.db.find? (fun x => x.id = id) = some r)
    (hext : extractS3Key "gallery/" r.url = none) :
    deleteGallery f st id =
      (.ok (), { db := st.db.filter (fun x => x.id ≠ id), storage := st.storage },
       [Ev.txBegin, Ev.sqlSelect, Ev.sqlDelete, Ev.txCommit]) := by
  simp [deleteGallery, hfind, hext]

/-- C7 witnessed on a row whose URL is malformed (the parse throws). -/
theorem deleteGallery_unparseable_url_skips_storage_delete_witness :
    deleteGallery (fun _ => false)
        { db := [{ id := "g1", url := .malformed "not a url" }]
          storage := [{ dir := "gallery", stem := "x", ext := "png" }] } "g1" =
      (.ok (),
       { db := [], storage := [{ dir := "gallery", stem := "x", ext := "png" }] },
       [Ev.txBegin, Ev.sqlSelect, Ev.sqlDelete, Ev.txCommit]) := by
  have h := deleteGallery_unparseable_url_skips_storage_delete (fun _ => false)
    { db := [{ id := "g1", url := .malformed "not a url" }]
      storage := [{ dir := "gallery", stem := "x", ext := "png" }] } "g1"
    { id := "g1", url := .malformed "not a url" } rfl rfl
  simpa using h

-- ======================================================================
-- C5
-- ======================================================================

/-- C5 counterexample: a concrete `saveSettings` with a prior main image
`images/main.png` and a new png file uploads to exactly the key of the
previous stored image — the fixed path `images/main.png`, not a freshly
derived key. -/
theorem saveSettings_reuses_previous_storage_key :
    ((({ row := some { mainImage := some (.fromKey { dir := "images", stem := "main", ext := "png" })
                       sns := .nullCol }
         storage := [{ dir := "images", stem := "main", ext := "png" }] } :
        SettingsState).row.bind (·.mainImage)) =
      some (.fromKey { dir := "images", stem := "main", ext := "png" })) ∧
    uploadsOf (saveSettings false
        { row := some { mainImage := some (.fromKey { dir := "images", stem := "main", ext := "png" })
                        sns := .nullCol }
          storage := [{ dir := "images", stem := "main", ext := "png" }] }
        [] (some { mimetype := "image/png", bufferNonempty := true
                   uploadFails := false })).2.2 =
      [{ dir := "images", stem := "main", ext := "png" }] := by
  decide

/-- C5 amended: `updateAlbum` derives the upload key `albums/<uuid>.<ext>`
from the fresh uuid draw, so it differs from the prior key whenever the
drawn token differs from the prior key's token; `saveSettings`, by
contrast, always uploads to the fixed token-free key `images/main.<ext>`
(equal to the prior key whenever the extension repeats). -/
theorem upload_key_fresh_for_album_fixed_for_settings
    (st : AlbumState) (id : Nat) (data : AlbumIn) (f : FileIn) (uuid : String)
    (r : AlbumRow) (kOld : S3Key)
    (hfind : getAlbumById st id = some r)
    (him : r.image = some (.fromKey kOld))
    (hup : f.uploadFails = false)
    (hfresh : uuid ≠ kOld.stem) :
    uploadsOf (updateAlbum st id data (some f) uuid).2.2 =
      [albumKey uuid f.mimetype] ∧
    albumKey uuid f.mimetype ≠ kOld ∧
    (∀ (st2 : SettingsState) (sns : List SnsLink) (g : FileIn) (sqlFail : Bool),
      g.bufferNonempty = true → ¬ g.mimetype = "" → g.uploadFails = false →
      uploadsOf (saveSettings sqlFail st2 sns (some g)).2.2 =
        [settingsKey g.mimetype]) := by
  refine ⟨?_, ?_, ?_⟩
  · simp [updateAlbum, hfind, him, hup, albumDeleteS3File, uploadsOf]
  · intro hk
    exact hfresh (congrArg S3Key.stem hk)
  · intro st2 sns g sqlFail hbuf hmime hgup
    rcases hcur : st2.row.bind (·.mainImage) with _ | u
    · cases sqlFail <;>
        simp [saveSettings, hcur, hbuf, hmime, hgup, uploadsOf]
    · rcases hext : extractS3Key "images/" u with _ | k <;> cases sqlFail <;>
        simp [saveSettings, hcur, hext, hbuf, hmime, hgup, uploadsOf]

/-- C5 amended, witnessed: a fresh token `new1` differs from the prior
token `old0`, and the settings upload key is the fixed one. -/
theorem upload_key_fresh_for_album_fixed_for_settings_witness :
    uploadsOf (updateAlbum
        { db := [{ id := 1, title := "T", date := "2024-01-01", description := ""
                   tracks := [], videoUrl := ""
                   image := some (.fromKey { dir := "albums", stem := "old0", ext := "png" }) }]
          nextId := 2, storage := [{ dir := "albums", stem := "old0", ext := "png" }] }
        1 { title := none, date := none, description := none, tracks := none
            videoUrl := none }
        (some { mimetype := "image/png", bufferNonempty := true, uploadFails := false })
        "new1").2.2 = [albumKey "new1" "image/png"] ∧
    albumKey "new1" "image/png" ≠ { dir := "albums", stem := "old0", ext := "png" } ∧
    (∀ (st2 : SettingsState) (sns : List SnsLink) (g : FileIn) (sqlFail : Bool),
      g.bufferNonempty = true → ¬ g.mimetype = "" → g.uploadFails = false →
      uploadsOf (saveSettings sqlFail st2 sns (some g)).2.2 =
        [settingsKey g.mimetype]) :=
  upload_key_fresh_for_album_fixed_for_settings _ 1 _ _ "new1"
    { id := 1, title := "T", date := "2024-01-01", description := "", tracks := []
      videoUrl := ""
      image := some (.fromKey { dir := "albums", stem := "old0", ext := "png" }) }
    { dir := "albums", stem := "old0", ext := "png" }
    (by decide) rfl rfl (by decide)

-- ======================================================================
-- C9
-- ======================================================================

/-- C9: the gallery batch upload skips a file whose S3 upload fails —
continuing with the remaining files and inserting no row for it — and
returns exactly one `{id, url}` item per successfully uploaded file, in
input order: the result has one entry per success and the table gains
precisely the rows of the returned items, appended in order. -/
theorem uploadGalleryImages_skips_failed_and_inserts_successes
    (tok : Nat → String) (files : List FileIn) (i : Nat) (st : GalleryState) :
    (uploadGalleryImages tok i st files).1.length =
      (files.filter (fun f => !f.uploadFails)).length ∧
    (uploadGalleryImages tok i st files).2.1.db =
      st.db ++ (uploadGalleryImages tok i st files).1.map
        (fun it => { id := it.id, url := it.url }) := by
  induction files generalizing i st with
  | nil => simp [uploadGalleryImages]
  | cons f fs ih =>
    by_cases hf : f.uploadFails
    · have h := ih (i + 1) st
      simp [uploadGalleryImages, hf, h.1, h.2]
    · have h := ih (i + 2)
        { db := st.db ++ [{ id := tok (i + 1)
                            url := .fromKey (galleryKey (tok i) f.mimetype) }]
          storage := addKey st.storage (galleryKey (tok i) f.mimetype) }
      simp [uploadGalleryImages, hf, h.1, h.2, List.append_assoc]

-- ======================================================================
-- C6 (helper lemmas, then the claim theorem)
-- ======================================================================

/-- Membership after `addKey`. -/
theorem mem_addKey_iff (s : List S3Key) (a k : S3Key) :
    k ∈ addKey s a ↔ k = a ∨ k ∈ s := by
  by_cases h : a ∈ s
  · simp only [addKey, if_pos h]
    constructor
    · exact Or.inr
    · rintro (rfl | hk)
      · exact h
      · exact hk
  · simp [addKey, if_neg h, List.mem_cons]

/-- `uploadsOf` distributes over trace concatenation. -/
theorem uploadsOf_append (a b : List Ev) :
    uploadsOf (a ++ b) = uploadsOf a ++ uploadsOf b := by
  simp [uploadsOf, List.filterMap_append]

/-- A successful upload event contributes its key to `uploadsOf`. -/
theorem uploadsOf_cons_upload (k : S3Key) (tr : List Ev) :
    uploadsOf (Ev.upload k :: tr) = k :: uploadsOf tr := rfl

/-- Every key live after the `saveProfile` upload loop was live before or
was uploaded by the loop. -/
theorem profileUploadLoop_storage_bound (id : String) (tok : Nat → String) :
    ∀ (imgs : List PayloadImage) (files : List FileIn) (storage : List S3Key)
      (ti : Nat) (k : S3Key),
      k ∈ (profileUploadLoop id tok files storage imgs ti).2.1 →
      k ∈ storage ∨ k ∈ uploadsOf (profileUploadLoop id tok files storage imgs ti).2.2
  | [], _, storage, ti, k, hk => Or.inl hk
  | { iid := iid, url := .placeholder } :: rest, f :: fs, storage, ti, k, hk => by
    by_cases hf : f.uploadFails
    · refine Or.inl ?_
      simpa [profileUploadLoop, hf] using hk
    · have hx := profileUploadLoop_storage_bound id tok rest fs
        (addKey storage (memberKey id (tok ti) f.mimetype)) (ti + 1) k
      rcases hrec : profileUploadLoop id tok fs
          (addKey storage (memberKey id (tok ti) f.mimetype)) rest (ti + 1) with
        ⟨res, stg, tr⟩
      rw [hrec] at hx
      simp only [profileUploadLoop, Bool.not_eq_true] at hk ⊢
      rw [if_neg hf, hrec] at hk ⊢
      cases res with
      | error e =>
        rcases hx hk with h1 | h2
        · rcases (mem_addKey_iff storage (memberKey id (tok ti) f.mimetype) k).mp h1 with
            rfl | h3
          · exact Or.inr (List.mem_cons_self _ _)
          · exact Or.inl h3
        · exact Or.inr (List.mem_cons_of_mem _ h2)
      | ok items =>
        rcases hx hk with h1 | h2
        · rcases (mem_addKey_iff storage (memberKey id (tok ti) f.mimetype) k).mp h1 with
            rfl | h3
          · exact Or.inr (List.mem_cons_self _ _)
          · exact Or.inl h3
        · exact Or.inr (List.mem_cons_of_mem _ h2)
  | { iid := iid, url := .placeholder } :: rest, [], storage, ti, k, hk => by
    have hx := profileUploadLoop_storage_bound id tok rest [] storage ti k
    rcases hrec : profileUploadLoop id tok [] storage rest ti with ⟨res, stg, tr⟩
    rw [hrec] at hx
    simp only [profileUploadLoop] at hk ⊢
    rw [hrec] at hk ⊢
    cases res with
    | error e => exact hx hk
    | ok items => exact hx hk
  | { iid := iid, url := .emptyUrl } :: rest, fl, storage, ti, k, hk => by
    have hx := profileUploadLoop_storage_bound id tok rest fl storage ti k
    simp only [profileUploadLoop] at hk ⊢
    exact hx hk
  | { iid := iid, url := .given u } :: rest, fl, storage, ti, k, hk => by
    have hx := profileUploadLoop_storage_bound id tok rest fl storage ti k
    rcases hrec : profileUploadLoop id tok fl storage rest ti with ⟨res, stg, tr⟩
    rw [hrec] at hx
    simp only [profileUploadLoop] at hk ⊢
    rw [hrec] at hk ⊢
    cases res with
    | error e => exact hx hk
    | ok items => exact hx hk

/-- The `saveProfile` cleanup loop only removes objects: every key live
afterwards was live before. -/
theorem profileCleanupLoop_storage_bound (finalUrls : List StoredUrl) :
    ∀ (olds : List StoredUrl) (storage : List S3Key) (k : S3Key),
      k ∈ (profileCleanupLoop finalUrls storage olds).1 → k ∈ storage
  | [], storage, k, hk => hk
  | oldUrl :: rest, storage, k, hk => by
    by_cases hmem : oldUrl ∈ finalUrls
    · rw [profileCleanupLoop, if_pos hmem] at hk
      exact profileCleanupLoop_storage_bound finalUrls rest storage k hk
    · rw [profileCleanupLoop, if_neg hmem] at hk
      rcases hext : extractS3Key "members/" oldUrl with _ | k2
      · rw [hext] at hk
        exact profileCleanupLoop_storage_bound finalUrls rest storage k hk
      · rcases hrec : profileCleanupLoop finalUrls (delKey storage k2) rest with ⟨stg, tr⟩
        simp only [hext, hrec] at hk
        have hx := profileCleanupLoop_storage_bound finalUrls rest (delKey storage k2) k
        rw [hrec] at hx
        exact List.mem_of_mem_erase (hx hk)

/-- On an upsert-statement failure, `saveSettings` rolls back: the row is
unchanged, the trace ends in a rollback, and the only possibly-new live
object is the one the call itself uploaded. -/
theorem saveSettings_sqlFail_rolls_back (st : SettingsState) (sns : List SnsLink)
    (f : FileIn) (hbuf : f.bufferNonempty = true) (hmime : ¬ f.mimetype = "")
    (hup : f.uploadFails = false) :
    (saveSettings true st sns (some f)).1 = .error .dbErr ∧
    (saveSettings true st sns (some f)).2.1.row = st.row ∧
    Ev.txRollback ∈ (saveSettings true st sns (some f)).2.2 ∧
    ∀ k ∈ (saveSettings true st sns (some f)).2.1.storage,
      k ∈ st.storage ∨ k ∈ uploadsOf (saveSettings true st sns (some f)).2.2 := by
  rcases hcur : st.row.bind (fun r => r.mainImage) with _ | u
  · have heq : saveSettings true st sns (some f) =
        (.error .dbErr,
         { row := st.row, storage := addKey st.storage (settingsKey f.mimetype) },
         [Ev.txBegin, Ev.sqlSelect, Ev.upload (settingsKey f.mimetype),
          Ev.txRollback]) := by
      simp [saveSettings, hcur, hbuf, hmime, hup]
    rw [heq]
    refine ⟨rfl, rfl, by simp, ?_⟩
    intro k hk
    rcases (mem_addKey_iff _ _ _).mp hk with rfl | h
    · exact Or.inr (by simp [uploadsOf])
    · exact Or.inl h
  · rcases hext : extractS3Key "images/" u with _ | k2
    · have heq : saveSettings true st sns (some f) =
          (.error .dbErr,
           { row := st.row, storage := addKey st.storage (settingsKey f.mimetype) },
           [Ev.txBegin, Ev.sqlSelect, Ev.upload (settingsKey f.mimetype),
            Ev.txRollback]) := by
        simp [saveSettings, hcur, hext, hbuf, hmime, hup]
      rw [heq]
      refine ⟨rfl, rfl, by simp, ?_⟩
      intro k hk
      rcases (mem_addKey_iff _ _ _).mp hk with rfl | h
      · exact Or.inr (by simp [uploadsOf])
      · exact Or.inl h
    · have heq : saveSettings true st sns (some f) =
          (.error .dbErr,
           { row := st.row
             storage := addKey (delKey st.storage k2) (settingsKey f.mimetype) },
           [Ev.txBegin, Ev.sqlSelect, Ev.storageDelete k2,
            Ev.upload (settingsKey f.mimetype), Ev.txRollback]) := by
        simp [saveSettings, hcur, hext, hbuf, hmime, hup]
      rw [heq]
      refine ⟨rfl, rfl, by simp, ?_⟩
      intro k hk
      rcases (mem_addKey_iff _ _ _).mp hk with rfl | h
      · exact Or.inr (by simp [uploadsOf])
      · exact Or.inl (List.mem_of_mem_erase h)

/-- On an upsert-statement failure after successful uploads, `saveProfile`
rolls back: the table is unchanged, the trace ends in a rollback, and every
possibly-new live object is one the call itself uploaded. -/
theorem saveProfile_sqlFail_rolls_back (st2 : ProfileState) (pid : String)
    (payload : ProfilePayload) (files : List FileIn) (tok : Nat → String)
    (imgs : List ImgItem)
    (hok : (profileUploadLoop pid tok files st2.storage payload.images 0).1 = .ok imgs) :
    (saveProfile true st2 pid payload files tok).1 = .error .dbErr ∧
    (saveProfile true st2 pid payload files tok).2.1.db = st2.db ∧
    Ev.txRollback ∈ (saveProfile true st2 pid payload files tok).2.2 ∧
    ∀ k ∈ (saveProfile true st2 pid payload files tok).2.1.storage,
      k ∈ st2.storage ∨ k ∈ uploadsOf (saveProfile true st2 pid payload files tok).2.2 := by
  rcases hrec : profileUploadLoop pid tok files st2.storage payload.images 0 with
    ⟨res, storage1, upEvs⟩
  have hres : res = .ok imgs := by
    rw [hrec] at hok
    exact hok
  subst hres
  have hub := profileUploadLoop_storage_bound pid tok payload.images files
    st2.storage 0
  rw [hrec] at hub
  rcases hcl : profileCleanupLoop (imgs.map (fun it => it.url)) storage1
      ((((st2.db.find? (fun r => r.id = pid)).map (fun r => r.images)).getD []).map
        (fun it => it.url)) with ⟨storage2, delEvs⟩
  have hcb := profileCleanupLoop_storage_bound (imgs.map (fun it => it.url))
    ((((st2.db.find? (fun r => r.id = pid)).map (fun r => r.images)).getD []).map
      (fun it => it.url)) storage1
  rw [hcl] at hcb
  have heq : saveProfile true st2 pid payload files tok =
      (.error .dbErr, { db := st2.db, storage := storage2 },
       [Ev.txBegin, Ev.sqlSelect] ++ upEvs ++ delEvs ++ [Ev.txRollback]) := by
    simp [saveProfile, hrec, hcl]
  rw [heq]
  refine ⟨rfl, rfl, by simp, ?_⟩
  intro k hk
  rcases hub k (hcb k hk) with h1 | h2
  · exact Or.inl h1
  · refine Or.inr ?_
    have h2b : k ∈ uploadsOf upEvs := h2
    simp only [uploadsOf_append, List.mem_append]
    tauto

/-- C6: when the image upload succeeds but the relational write fails, the
open transaction is rolled back and the record as read back afterward is
unchanged (the settings row, resp. the members table, is exactly its
pre-operation value — or still absent on a first create); the only objects
possibly added to storage are the ones this call uploaded, which remain as
orphans. -/
theorem relational_failure_rolls_back_row
    (st : SettingsState) (sns : List SnsLink) (f : FileIn)
    (hbuf : f.bufferNonempty = true) (hmime : ¬ f.mimetype = "")
    (hup : f.uploadFails = false)
    (st2 : ProfileState) (pid : String) (payload : ProfilePayload)
    (files : List FileIn) (tok : Nat → String) (imgs : List ImgItem)
    (hok : (profileUploadLoop pid tok files st2.storage payload.images 0).1 = .ok imgs) :
    ((saveSettings true st sns (some f)).1 = .error .dbErr ∧
     (saveSettings true st sns (some f)).2.1.row = st.row ∧
     Ev.txRollback ∈ (saveSettings true st sns (some f)).2.2 ∧
     ∀ k ∈ (saveSettings true st sns (some f)).2.1.storage,
       k ∈ st.storage ∨ k ∈ uploadsOf (saveSettings true st sns (some f)).2.2) ∧
    ((saveProfile true st2 pid payload files tok).1 = .error .dbErr ∧
     (saveProfile true st2 pid payload files tok).2.1.db = st2.db ∧
     Ev.txRollback ∈ (saveProfile true st2 pid payload files tok).2.2 ∧
     ∀ k ∈ (saveProfile true st2 pid payload files tok).2.1.storage,
       k ∈ st2.storage ∨ k ∈ uploadsOf (saveProfile true st2 pid payload files tok).2.2) :=
  ⟨saveSettings_sqlFail_rolls_back st sns f hbuf hmime hup,
   saveProfile_sqlFail_rolls_back st2 pid payload files tok imgs hok⟩

/-- C6 witnessed: settings save of a png onto an empty singleton and a
profile save with no images, both with a failing upsert. -/
theorem relational_failure_rolls_back_row_witness :
    (((saveSettings true { row := none, storage := [] } []
        (some { mimetype := "image/png", bufferNonempty := true, uploadFails := false })).1 =
          .error .dbErr ∧
      (saveSettings true { row := none, storage := [] } []
        (some { mimetype := "image/png", bufferNonempty := true, uploadFails := false })).2.1.row =
          ({ row := none, storage := [] } : SettingsState).row ∧
      Ev.txRollback ∈ (saveSettings true { row := none, storage := [] } []
        (some { mimetype := "image/png", bufferNonempty := true, uploadFails := false })).2.2 ∧
      ∀ k ∈ (saveSettings true { row := none, storage := [] } []
          (some { mimetype := "image/png", bufferNonempty := true, uploadFails := false })).2.1.storage,
        k ∈ ({ row := none, storage := [] } : SettingsState).storage ∨
        k ∈ uploadsOf (saveSettings true { row := none, storage := [] } []
          (some { mimetype := "image/png", bufferNonempty := true, uploadFails := false })).2.2) ∧
     ((saveProfile true { db := [], storage := [] } "m"
        { name := "N", texts := "[]", sns := "[]", images := [] } [] (fun _ => "t")).1 =
          .error .dbErr ∧
      (saveProfile true { db := [], storage := [] } "m"
        { name := "N", texts := "[]", sns := "[]", images := [] } [] (fun _ => "t")).2.1.db =
          ({ db := [], storage := [] } : ProfileState).db ∧
      Ev.txRollback ∈ (saveProfile true { db := [], storage := [] } "m"
        { name := "N", texts := "[]", sns := "[]", images := [] } [] (fun _ => "t")).2.2 ∧
      ∀ k ∈ (saveProfile true { db := [], storage := [] } "m"
          { name := "N", texts := "[]", sns := "[]", images := [] } [] (fun _ => "t")).2.1.storage,
        k ∈ ({ db := [], storage := [] } : ProfileState).storage ∨
        k ∈ uploadsOf (saveProfile true { db := [], storage := [] } "m"
          { name := "N", texts := "[]", sns := "[]", images := [] } [] (fun _ => "t")).2.2)) :=
  relational_failure_rolls_back_row { row := none, storage := [] } []
    { mimetype := "image/png", bufferNonempty := true, uploadFails := false }
    rfl (by decide) rfl
    { db := [], storage := [] } "m"
    { name := "N", texts := "[]", sns := "[]", images := [] } [] (fun _ => "t")
    [] rfl

-- ======================================================================
-- C4 (helper lemmas, then the claim theorem)
-- ======================================================================

/-- Row lookup by one id is unaffected by filtering out a different id. -/
theorem gallery_any_filter_ne (l : List GalleryRow) (idv i : String)
    (hne : i ≠ idv) :
    (l.filter (fun x => x.id ≠ idv)).any (fun r => r.id = i) =
      l.any (fun r => r.id = i) := by
  have hpt : ∀ a : GalleryRow,
      (decide (a.id ≠ idv) && decide (a.id = i)) = decide (a.id = i) := by
    intro a
    by_cases h1 : a.id = i
    · have h2 : a.id ≠ idv := by
        rw [h1]
        exact hne
      simp [h1, h2, hne]
    · simp [h1]
  simp only [List.any_filter]
  exact congrArg l.any (funext hpt)

/-- When the row exists, `deleteGallery` returns normally and removes
exactly the rows with that id, whatever the storage-delete oracle does. -/
theorem deleteGallery_found (sd : S3Key → Bool) (st : GalleryState)
    (id : String) (r : GalleryRow)
    (h : st.db.find? (fun x => x.id = id) = some r) :
    (deleteGallery sd st id).1 = .ok () ∧
    (deleteGallery sd st id).2.1.db = st.db.filter (fun x => x.id ≠ id) := by
  rcases hext : extractS3Key "gallery/" r.url with _ | k
  · simp [deleteGallery, h, hext]
  · by_cases hsd : sd k <;> simp [deleteGallery, h, hext, hsd]

/-- C4: the gallery batch delete processes each id independently: for a
duplicate-free id list, the returned list is exactly the input ids whose
row existed (each removed), in input order — a missing id or a storage
delete failure (any oracle `sd`) neither aborts the batch nor changes the
reported subset, since the right-hand sides do not mention `sd` — and the
table afterwards holds exactly the rows whose id was not in the list. -/
theorem deleteMultipleGallery_reports_removed_subset (sd : S3Key → Bool)
    (st : GalleryState) (ids : List String) (h : ids.Nodup) :
    (deleteMultipleGallery sd st ids).1 =
      ids.filter (fun i => st.db.any (fun r => r.id = i)) ∧
    (deleteMultipleGallery sd st ids).2.db =
      st.db.filter (fun r => r.id ∉ ids) := by
  revert h
  induction ids generalizing st with
  | nil =>
    intro h
    simp [deleteMultipleGallery]
  | cons id rest ih =>
    intro h
    have hnotin : id ∉ rest := (List.nodup_cons.mp h).1
    have hnd : rest.Nodup := (List.nodup_cons.mp h).2
    rcases hf : st.db.find? (fun x => x.id = id) with _ | r
    · have hany : st.db.any (fun x => x.id = id) = false := by
        simp only [List.any_eq_false]
        intro x hx
        have := List.find?_eq_none.mp hf x hx
        simpa using this
      have hdg : deleteGallery sd st id =
          (.error .notFoundErr, st, [Ev.txBegin, Ev.sqlSelect, Ev.txRollback]) := by
        simp [deleteGallery, hf]
      have hstep : deleteMultipleGallery sd st (id :: rest) =
          deleteMultipleGallery sd st rest := by
        simp [deleteMultipleGallery, hdg]
      have ihh := ih st hnd
      constructor
      · rw [hstep, ihh.1, List.filter_cons]
        simp [hany]
      · rw [hstep, ihh.2]
        refine List.filter_congr ?_
        intro x hx
        have hxne : ¬ x.id = id := by
          have := List.find?_eq_none.mp hf x hx
          simpa using this
        simp [List.mem_cons, hxne]
    · have hmem := List.mem_of_find?_eq_some hf
      have hany : st.db.any (fun x => x.id = id) = true := by
        refine List.any_eq_true.mpr ⟨r, hmem, ?_⟩
        have := List.find?_some hf
        simpa using this
      rcases hdel : deleteGallery sd st id with ⟨res, st1, tr⟩
      have hdg := deleteGallery_found sd st id r hf
      rw [hdel] at hdg
      have hres : res = .ok () := hdg.1
      subst hres
      have hdb1 : st1.db = st.db.filter (fun x => x.id ≠ id) := hdg.2
      have hstep : deleteMultipleGallery sd st (id :: rest) =
          (id :: (deleteMultipleGallery sd st1 rest).1,
           (deleteMultipleGallery sd st1 rest).2) := by
        simp [deleteMultipleGallery, hdel]
      have ihh := ih st1 hnd
      constructor
      · rw [hstep]
        simp only
        rw [ihh.1, List.filter_cons]
        simp only [hany, if_pos]
        congr 1
        rw [hdb1]
        refine List.filter_congr ?_
        intro i hi
        have hine : i ≠ id := fun hh => hnotin (hh ▸ hi)
        exact gallery_any_filter_ne st.db id i hine
      · rw [hstep]
        simp only
        rw [ihh.2, hdb1, List.filter_filter]
        refine List.filter_congr ?_
        intro a _
        by_cases h1 : a.id = id <;> by_cases h2 : a.id ∈ rest <;>
          simp [h1, h2, List.mem_cons]

/-- C4 witnessed on the spec's scenario `[validId, missingId, validId2]`:
both valid ids are removed and reported, the missing one is skipped. -/
theorem deleteMultipleGallery_reports_removed_subset_witness :
    (deleteMultipleGallery (fun _ => false)
        { db := [{ id := "a", url := .malformed "u1" },
                 { id := "c", url := .malformed "u2" }]
          storage := [] } ["a", "b", "c"]).1 =
      (["a", "b", "c"].filter (fun i =>
        ([{ id := "a", url := .malformed "u1" },
          { id := "c", url := .malformed "u2" }] : List GalleryRow).any
          (fun r => r.id = i))) ∧
    (deleteMultipleGallery (fun _ => false)
        { db := [{ id := "a", url := .malformed "u1" },
                 { id := "c", url := .malformed "u2" }]
          storage := [] } ["a", "b", "c"]).2.db =
      (([{ id := "a", url := .malformed "u1" },
         { id := "c", url := .malformed "u2" }] : List GalleryRow).filter
        (fun r => r.id ∉ (["a", "b", "c"] : List String))) :=
  deleteMultipleGallery_reports_removed_subset (fun _ => false) _ ["a", "b", "c"]
    (by decide)
